import Mathlib

/-!
Verification development for the isp_monitor repository.

Shallow embedding of the monitoring and measurement engine:
ISPMonitor (src/isp_monitor/monitor.py), the periodic update loop and
ring-buffer logic of MonitoringDashboard.update_data
(src/isp_monitor/dashboard.py), and DNSLeakTester
(src/isp_monitor/dns_leak.py).

Python floats (timestamps, latencies, speeds) are modelled as rationals ℚ;
the code only adds, subtracts, divides and compares them, and none of the
claims depends on rounding.  Network effects (ping3.ping, speedtest
transfers, DNS resolution, reading the system resolver list) are passed in
as explicit outcome values; everything downstream of those outcomes is
translated from the source.
-/

/-- Outcome of one call to `ping3.ping(host, timeout=1)`: the call may raise
an exception, return `None` on timeout, or return the round-trip time in
seconds. -/
inductive PingOutcome where
  | exn : PingOutcome
  | timeout : PingOutcome
  | rtt : ℚ → PingOutcome
deriving DecidableEq

/-- Embeds `ISPMonitor.check_connection` (monitor.py lines 26-31):
`ping3.ping('8.8.8.8', timeout=1) is not None`, any exception → `False`. -/
def check_connection : PingOutcome → Bool
  | .exn => false
  | .timeout => false
  | .rtt _ => true

/-- Embeds `ISPMonitor.measure_ping` (monitor.py lines 32-40): on a reply, the
round-trip time in milliseconds (`ping_time * 1000`); on timeout (`None`)
or any exception, `0.0`. -/
def measure_ping : PingOutcome → ℚ
  | .exn => 0
  | .timeout => 0
  | .rtt t => t * 1000

/-- The dashboard's lost-sample test (dashboard.py line 284):
`ping_time == 0.0 or ping_time is None`.  `measure_ping` always returns a
float, so the `is None` disjunct is dead code and the test is equality
with zero. -/
def isLostPing (ping_time : ℚ) : Bool := ping_time == 0

/-- State of the speedtest part of `ISPMonitor` (monitor.py lines 16-24):
`speedtest_available`, `last_speed_test` (0 at construction), and the
speedtest library's `results` object holding the last measured raw
download/upload rates in bits per second (`None` models the object before
`hasattr(self.speedtest, 'results')` holds). -/
structure SpeedtestState where
  speedtest_available : Bool
  last_speed_test : ℚ
  results : Option (ℚ × ℚ)
deriving DecidableEq

/-- Embeds `self.speed_test_interval = 300` (monitor.py line 24). -/
def speed_test_interval : ℚ := 300

/-- Outcome of the network part of a speed test run
(`get_best_server` + `download` + `upload`, monitor.py lines 50-70):
either both transfer phases complete, yielding raw bits-per-second rates,
or some phase raises. -/
inductive SpeedRun where
  | ok : ℚ → ℚ → SpeedRun
  | fail : SpeedRun
deriving DecidableEq

/-- The dict returned by `measure_speed`: download and upload in Mbps and
whether the `"error": True` key is present (absent key modelled as
`error := false`). -/
structure SpeedResult where
  download : ℚ
  upload : ℚ
  error : Bool
deriving DecidableEq

/-- Return value of the embedded `measure_speed` together with the updated
monitor state and whether the tick entered the measurement attempt
(the `try` block of monitor.py lines 48-76). -/
structure MeasureSpeedRet where
  result : SpeedResult
  ranMeasurement : Bool
  state : SpeedtestState
deriving DecidableEq

/-- The cached-result branch of `measure_speed` (monitor.py line 47):
`self.speedtest.results.download / 1_000_000 if hasattr(...) else 0.0`,
likewise for upload; the returned dict has no `"error"` key. -/
def cachedResult (st : SpeedtestState) : SpeedResult :=
  match st.results with
  | some du => ⟨du.1 / 1000000, du.2 / 1000000, false⟩
  | none => ⟨0, 0, false⟩

/-- Embeds `ISPMonitor.measure_speed` (monitor.py lines 41-76).
* unavailable subsystem → `{"download": 0.0, "upload": 0.0, "error": True}`
  and no measurement (lines 42-44);
* `not force and current_time - last_speed_test < speed_test_interval` →
  cached results, no measurement (lines 46-47);
* otherwise the measurement attempt runs: on success the rates are
  returned in Mbps, the library's `results` object now holds them, and
  `last_speed_test` is set to `current_time` (lines 48-73); on an
  exception the error dict is returned and the state is unchanged
  (lines 74-76). -/
def measure_speed (st : SpeedtestState) (force : Bool) (current_time : ℚ)
    (run : SpeedRun) : MeasureSpeedRet :=
  if st.speedtest_available = false then
    ⟨⟨0, 0, true⟩, false, st⟩
  else if force = false ∧ current_time - st.last_speed_test < speed_test_interval then
    ⟨cachedResult st, false, st⟩
  else
    match run with
    | .ok d u =>
        ⟨⟨d / 1000000, u / 1000000, false⟩, true,
          { st with last_speed_test := current_time, results := some (d, u) }⟩
    | .fail => ⟨⟨0, 0, true⟩, true, st⟩

/-- Embeds `DNSLeakTester.test_domains` (dns_leak.py lines 18-24). -/
def test_domains : List String :=
  ["www.google.com", "www.cloudflare.com", "www.amazon.com",
    "www.microsoft.com", "www.facebook.com"]

/-- Embeds `DNSLeakTester.get_system_dns` (dns_leak.py lines 26-33): the list of
the system resolver's nameservers as strings, or `[]` if reading them
raises any exception.  The outcome of the environment read is passed in as
an `Except` value. -/
def get_system_dns (read : Except Unit (List String)) : List String :=
  match read with
  | .ok servers => servers
  | .error _ => []

/-- The dict returned by `DNSLeakTester.check_dns_leaks`.  The Python code
builds `configured_dns`, `detected_servers` and `unexpected_servers` as
`set`s (materialised to lists only for display), so they are modelled as
`Finset String`; `details` is flattened into the two counter fields. -/
structure DNSLeakReport where
  configured_dns : Finset String
  detected_servers : Finset String
  unexpected_servers : Finset String
  is_leaking : Bool
  domains_tested : ℕ
  total_servers_detected : ℕ
deriving DecidableEq

/-- The per-domain resolution outcomes of a run: for each submitted domain,
`future.result()` either returns the `Set[str]` collected by
`resolve_domain` (which is partial or empty if resolution failed, since
`resolve_domain` swallows exceptions, dns_leak.py lines 35-51) or raises,
in which case `check_dns_leaks` skips that domain (lines 83-84).
Completion order does not matter because the results are only unioned. -/
def detectedUnion (resolutions : List (Option (Finset String))) : Finset String :=
  resolutions.foldl (fun acc r => match r with | some s => acc ∪ s | none => acc) ∅

/-- Embeds `DNSLeakTester.check_dns_leaks` (dns_leak.py lines 53-99):
`configured_dns = set(self.get_system_dns())`, `detected_servers` is the
union of the per-domain sets, `unexpected_servers = detected_servers -
configured_dns`, `is_leaking = len(unexpected_servers) > 0`. -/
def check_dns_leaks (read : Except Unit (List String))
    (resolutions : List (Option (Finset String))) : DNSLeakReport :=
  let configured_dns := (get_system_dns read).toFinset
  let detected_servers := detectedUnion resolutions
  let unexpected_servers := detected_servers \ configured_dns
  { configured_dns := configured_dns
    detected_servers := detected_servers
    unexpected_servers := unexpected_servers
    is_leaking := decide (0 < unexpected_servers.card)
    domains_tested := test_domains.length
    total_servers_detected := detected_servers.card }

/-- Embeds `self.window_seconds = 300` (dashboard.py line 177). -/
def window_seconds : ℚ := 300

/-- Embeds `np.isnan` on the values the dashboard appends to `ping_data`.
Those values are always outputs of `measure_ping`, i.e. `rtt * 1000` of a
real round-trip time or the literal `0.0`, so none of them is NaN; on the
rational model of those floats the predicate is constantly false. -/
def isNan (_ : ℚ) : Bool := false

/-- Embeds `valid_y = [y for y in self.ping_data if not np.isnan(y)]`
(dashboard.py line 308). -/
def validSamples (ping_data : List ℚ) : List ℚ :=
  ping_data.filter (fun y => !(isNan y))

/-- What the ping metrics label shows after a tick: nothing yet (`""`),
the `"No data"` text, or the min/max/avg/loss figures
(dashboard.py lines 309-321). -/
inductive MetricsDisplay where
  | blank
  | noData
  | stats (minPing maxPing avgPing : ℚ) (lossCount totalCount : ℕ)
deriving DecidableEq

/-- The metrics computation of dashboard.py lines 307-321: filter out NaN
values, and if any remain take `np.nanmin`, `np.nanmax`, `np.nanmean`
(plain min/max/mean of a NaN-free nonempty list) together with the
loss counters; otherwise show `"No data"`. -/
def pingMetrics (ping_data : List ℚ) (lost_pings total_pings : ℕ) : MetricsDisplay :=
  match validSamples ping_data with
  | [] => .noData
  | y :: ys =>
      .stats (ys.foldl min y) (ys.foldl max y) ((y + ys.sum) / (ys.length + 1))
        lost_pings total_pings

/-- Modelled from the claim's words, not from the source, for comparison
with `pingMetrics`: min/max/avg taken only over the samples that are not
lost (in the code's encoding, a buffered sample is lost exactly when its
value satisfies the line-284 test `isLostPing`), with lost samples still
counted by the loss counters. -/
def claimedMetrics (ping_data : List ℚ) (lost_pings total_pings : ℕ) : MetricsDisplay :=
  match ping_data.filter (fun y => !(isLostPing y)) with
  | [] => .noData
  | y :: ys =>
      .stats (ys.foldl min y) (ys.foldl max y) ((y + ys.sum) / (ys.length + 1))
        lost_pings total_pings

/-- The mutable dashboard state touched by `update_data`: the ring-buffer
lists `ping_time_data`/`ping_data`, the loss counters and lost-ping
timestamps (dashboard.py lines 175-191), the `ping_status_label` and
`status_label` texts, and the metrics label content. -/
structure DashState where
  speedtest_running : Bool
  ping_time_data : List ℚ
  ping_data : List ℚ
  total_pings : ℕ
  lost_pings : ℕ
  lost_ping_times : List ℚ
  ping_status : String
  status : String
  metrics : MetricsDisplay
deriving DecidableEq

/-- Dashboard state right after `setup_data_structures`/`setup_ui`:
empty buffers, zero counters, `speedtest_running = False`
(dashboard.py lines 175-191, label texts from lines 65 and 124). -/
def initState : DashState :=
  { speedtest_running := false
    ping_time_data := []
    ping_data := []
    total_pings := 0
    lost_pings := 0
    lost_ping_times := []
    ping_status := "Initializing..."
    status := "Status: Initializing..."
    metrics := .blank }

/-- The eviction loop of dashboard.py lines 290-292: while the head of
`ping_time_data` is older than the cutoff, pop the heads of both
`ping_time_data` and `ping_data` in lockstep.  (The two lists always have
equal length; popping the tail of an already-empty data list models the
unreachable unequal-length case.) -/
def evictPair (ts ys : List ℚ) (cutoff : ℚ) : List ℚ × List ℚ :=
  match ts with
  | [] => ([], ys)
  | t :: ts' => if t < cutoff then evictPair ts' ys.tail cutoff else (t :: ts', ys)

/-- The eviction loop of dashboard.py lines 294-295: pop head entries of
`lost_ping_times` older than the cutoff. -/
def evictList (ts : List ℚ) (cutoff : ℚ) : List ℚ :=
  match ts with
  | [] => []
  | t :: ts' => if t < cutoff then evictList ts' cutoff else t :: ts'

/-- Result of one timer tick: the new dashboard state and how many network
probe calls (`ping3.ping`) the tick performed. -/
structure TickResult where
  state : DashState
  probes : ℕ
deriving DecidableEq

/-- Embeds `MonitoringDashboard.update_data` (dashboard.py lines 256-329), the
handler of the 1-second timer.  The tick's environment interactions are the
outcomes of its up-to-three `ping3.ping` calls: `conn1` for the
`check_connection()` on line 263, `conn2` for the one on line 268, `ping`
for the `measure_ping()` on line 275, and `now = time.time()` (line 279).
* If a speed test is running (lines 258-261): set the ping status label and
  return — no probe, no append.
* Otherwise (lines 262-269) the two connection checks set the two labels.
* If connected (lines 274-321): append `(now, measure_ping())` to the
  buffers, bump `total_pings`, bump the loss counters when the line-284
  test fires, evict entries older than `now - window_seconds`, and (the
  buffer being nonempty) recompute the metrics label.
* Else (lines 322-329): clear `ping_time_data` and `ping_data`.
Pure UI actions (plot redraw, progress-bar visibility, ping/speed label
texts) are not modelled. -/
def update_data (st : DashState) (conn1 conn2 ping : PingOutcome) (now : ℚ) : TickResult :=
  if st.speedtest_running then
    ⟨{ st with ping_status := "Paused (speed test running)" }, 0⟩
  else
    let ping_status := if check_connection conn1 then "Connected: Running" else "Disconnected"
    let status := if check_connection conn2 then "Status: Connected" else "Status: Disconnected"
    if check_connection conn2 then
      let ping_time := measure_ping ping
      let total_pings := st.total_pings + 1
      let lost := isLostPing ping_time
      let lost_pings := if lost then st.lost_pings + 1 else st.lost_pings
      let lost_ping_times := if lost then st.lost_ping_times ++ [now] else st.lost_ping_times
      let cutoff := now - window_seconds
      let buf := evictPair (st.ping_time_data ++ [now]) (st.ping_data ++ [ping_time]) cutoff
      let lost_ping_times := evictList lost_ping_times cutoff
      let metrics := if buf.1 = [] then st.metrics else pingMetrics buf.2 lost_pings total_pings
      ⟨{ st with
          ping_time_data := buf.1
          ping_data := buf.2
          total_pings := total_pings
          lost_pings := lost_pings
          lost_ping_times := lost_ping_times
          ping_status := ping_status
          status := status
          metrics := metrics }, 3⟩
    else
      ⟨{ st with
          ping_time_data := []
          ping_data := []
          ping_status := ping_status
          status := status }, 2⟩

/-- One tick as seen from the state: the value that `speedtest_running`
has at tick time (it is set and cleared between ticks by
`run_speed_test_now` / `handle_speedtest_result`, dashboard.py lines 223
and 248), the three probe outcomes, and the tick's `time.time()`. -/
structure TickInput where
  running : Bool
  conn1 : PingOutcome
  conn2 : PingOutcome
  ping : PingOutcome
  now : ℚ

/-- Run one tick of the timer loop against a given `speedtest_running`
value. -/
def tickStep (st : DashState) (i : TickInput) : DashState :=
  (update_data { st with speedtest_running := i.running } i.conn1 i.conn2 i.ping i.now).state

/-- Run a sequence of timer ticks from a starting state. -/
def runTicks (st : DashState) (l : List TickInput) : DashState :=
  l.foldl tickStep st

/-- Predicate `Mono b l`: the tick times of `l` are nondecreasing and bounded below
by `b` — the strictly periodic, time-ordered scheduling the orchestrator
upholds. -/
def Mono : ℚ → List TickInput → Prop
  | _, [] => True
  | b, i :: l => b ≤ i.now ∧ Mono i.now l

/-- The time of the last tick of `l`, or `b` when `l` is empty. -/
def lastNow : ℚ → List TickInput → ℚ
  | b, [] => b
  | _, i :: l => lastNow i.now l

/-- The ring-buffer timestamps are sorted and bounded above by `b`. -/
def SortedLe (st : DashState) (b : ℚ) : Prop :=
  st.ping_time_data.Sorted (· ≤ ·) ∧ ∀ t ∈ st.ping_time_data, t ≤ b

/-- Concrete state for witnesses: a speed test is running and the buffer
holds one sample. -/
def runningState : DashState :=
  { initState with speedtest_running := true, ping_time_data := [5], ping_data := [7] }

/-- Concrete state for witnesses: the state after one fully successful
tick at time 100 with a 10 ms round trip. -/
def oneGoodTickState : DashState :=
  (update_data initState (PingOutcome.rtt (1 / 100)) (PingOutcome.rtt (1 / 100))
    (PingOutcome.rtt (1 / 100)) 100).state

/-- Concrete tick for the C4 witness: no speed test running, all probes
answered, tick time 400. -/
def sampleTick : TickInput :=
  ⟨false, PingOutcome.rtt 1, PingOutcome.rtt 1, PingOutcome.rtt 1, 400⟩

/-- Concrete state reached by two real ticks: at time 100 the connection
checks succeed but the latency probe times out (a lost sample, stored as
`0.0`), and at time 101 all probes succeed with a 50 ms round trip.  The
buffer then holds `ping_data = [0, 50]` with one lost of two samples. -/
def lostThenGoodState : DashState :=
  (update_data
    (update_data initState (PingOutcome.rtt 1) (PingOutcome.rtt 1)
      PingOutcome.timeout 100).state
    (PingOutcome.rtt 1) (PingOutcome.rtt 1) (PingOutcome.rtt (1 / 20)) 101).state

/-! ### Helper lemmas -/

theorem evictPair_fst_sublist (ts : List ℚ) : ∀ (ys : List ℚ) (c : ℚ),
    List.Sublist (evictPair ts ys c).1 ts := by
  induction ts with
  | nil => intro ys c; simp [evictPair]
  | cons t ts' ih =>
    intro ys c
    by_cases h : t < c
    · simp only [evictPair, h, if_true]
      exact (ih ys.tail c).cons t
    · simp [evictPair, h]

theorem evictPair_fst_lb (ts : List ℚ) : ∀ (ys : List ℚ) (c : ℚ),
    ts.Sorted (· ≤ ·) → ∀ t ∈ (evictPair ts ys c).1, c ≤ t := by
  induction ts with
  | nil => intro ys c _ t ht; simp [evictPair] at ht
  | cons a ts' ih =>
    intro ys c hs t ht
    obtain ⟨ha, hs'⟩ := List.sorted_cons.mp hs
    by_cases h : a < c
    · simp only [evictPair, h, if_true] at ht
      exact ih ys.tail c hs' t ht
    · simp only [evictPair, h, if_false] at ht
      rcases List.mem_cons.mp ht with rfl | hmem
      · exact not_lt.mp h
      · exact (not_lt.mp h).trans (ha t hmem)

theorem evictPair_fst_ne_nil (ts : List ℚ) : ∀ (ys : List ℚ) (x c : ℚ),
    ¬ x < c → (evictPair (ts ++ [x]) ys c).1 ≠ [] := by
  induction ts with
  | nil =>
    intro ys x c hx
    simp [evictPair, hx]
  | cons t ts' ih =>
    intro ys x c hx
    by_cases h : t < c
    · simpa only [List.cons_append, evictPair, h, if_true] using ih ys.tail x c hx
    · simp [evictPair, h]

theorem foldl_min_le (ys : List ℚ) : ∀ (y : ℚ), ∀ z ∈ y :: ys, ys.foldl min y ≤ z := by
  induction ys with
  | nil =>
    intro y z hz
    rw [List.mem_singleton.mp hz]
    simp
  | cons a ys' ih =>
    intro y z hz
    have hhead : ys'.foldl min (min y a) ≤ min y a :=
      ih (min y a) (min y a) (List.mem_cons_self _ _)
    simp only [List.foldl_cons]
    rcases List.mem_cons.mp hz with rfl | hz'
    · exact hhead.trans (min_le_left _ _)
    · rcases List.mem_cons.mp hz' with rfl | hz'' 
      · exact hhead.trans (min_le_right _ _)
      · exact ih (min y a) z (List.mem_cons_of_mem _ hz'')

theorem foldl_min_mem (ys : List ℚ) : ∀ (y : ℚ), ys.foldl min y ∈ y :: ys := by
  induction ys with
  | nil => intro y; simp
  | cons a ys' ih =>
    intro y
    simp only [List.foldl_cons]
    rcases List.mem_cons.mp (ih (min y a)) with hm | hm
    · rcases min_choice y a with hc | hc
      · rw [hm, hc]; exact List.mem_cons_self _ _
      · rw [hm, hc]; exact List.mem_cons_of_mem _ (List.mem_cons_self _ _)
    · exact List.mem_cons_of_mem _ (List.mem_cons_of_mem _ hm)

theorem foldl_max_ge (ys : List ℚ) : ∀ (y : ℚ), ∀ z ∈ y :: ys, z ≤ ys.foldl max y := by
  induction ys with
  | nil =>
    intro y z hz
    rw [List.mem_singleton.mp hz]
    simp
  | cons a ys' ih =>
    intro y z hz
    have hhead : max y a ≤ ys'.foldl max (max y a) :=
      ih (max y a) (max y a) (List.mem_cons_self _ _)
    simp only [List.foldl_cons]
    rcases List.mem_cons.mp hz with rfl | hz'
    · exact (le_max_left _ _).trans hhead
    · rcases List.mem_cons.mp hz' with rfl | hz'' 
      · exact (le_max_right _ _).trans hhead
      · exact ih (max y a) z (List.mem_cons_of_mem _ hz'')

theorem foldl_max_mem (ys : List ℚ) : ∀ (y : ℚ), ys.foldl max y ∈ y :: ys := by
  induction ys with
  | nil => intro y; simp
  | cons a ys' ih =>
    intro y
    simp only [List.foldl_cons]
    rcases List.mem_cons.mp (ih (max y a)) with hm | hm
    · rcases max_choice y a with hc | hc
      · rw [hm, hc]; exact List.mem_cons_self _ _
      · rw [hm, hc]; exact List.mem_cons_of_mem _ (List.mem_cons_self _ _)
    · exact List.mem_cons_of_mem _ (List.mem_cons_of_mem _ hm)

theorem sorted_append_singleton {l : List ℚ} {x : ℚ}
    (hs : l.Sorted (· ≤ ·)) (hub : ∀ t ∈ l, t ≤ x) :
    (l ++ [x]).Sorted (· ≤ ·) := by
  refine List.pairwise_append.mpr ⟨hs, List.sorted_singleton x, ?_⟩
  intro a ha b hb
  rw [List.mem_singleton.mp hb]
  exact hub a ha

theorem update_data_SortedLe (st : DashState) (c1 c2 p : PingOutcome) (now b : ℚ)
    (hs : st.ping_time_data.Sorted (· ≤ ·))
    (hub : ∀ t ∈ st.ping_time_data, t ≤ b) (hb : b ≤ now) :
    (update_data st c1 c2 p now).state.ping_time_data.Sorted (· ≤ ·) ∧
      ∀ t ∈ (update_data st c1 c2 p now).state.ping_time_data, t ≤ now := by
  by_cases hr : st.speedtest_running
  · simp only [update_data, hr, if_true]
    exact ⟨hs, fun t ht => (hub t ht).trans hb⟩
  · by_cases hc : check_connection c2
    · simp only [update_data, hr, hc, if_true, if_false, Bool.false_eq_true]
      have happ : (st.ping_time_data ++ [now]).Sorted (· ≤ ·) :=
        sorted_append_singleton hs (fun t ht => (hub t ht).trans hb)
      constructor
      · exact List.Pairwise.sublist (evictPair_fst_sublist _ _ _) happ
      · intro t ht
        have hmem : t ∈ st.ping_time_data ++ [now] :=
          (evictPair_fst_sublist _ _ _).subset ht
        rcases List.mem_append.mp hmem with h | h
        · exact (hub t h).trans hb
        · rw [List.mem_singleton.mp h]
    · simp only [update_data, hr, hc, if_true, if_false, Bool.false_eq_true]
      simp

theorem tickStep_SortedLe (st : DashState) (i : TickInput) (b : ℚ)
    (h : SortedLe st b) (hb : b ≤ i.now) : SortedLe (tickStep st i) i.now := by
  obtain ⟨hs, hub⟩ := h
  exact update_data_SortedLe { st with speedtest_running := i.running }
    i.conn1 i.conn2 i.ping i.now b hs hub hb

theorem runTicks_SortedLe (l : List TickInput) : ∀ (st : DashState) (b : ℚ),
    SortedLe st b → Mono b l → SortedLe (runTicks st l) (lastNow b l) := by
  induction l with
  | nil => intro st b h _; exact h
  | cons i l ih =>
    intro st b h hm
    obtain ⟨hb, hm'⟩ := hm
    exact ih (tickStep st i) i.now (tickStep_SortedLe st i b h hb) hm'

theorem Mono_append (l : List TickInput) : ∀ (b : ℚ) (i : TickInput),
    Mono b (l ++ [i]) → Mono b l ∧ lastNow b l ≤ i.now := by
  induction l with
  | nil => intro b i h; exact ⟨trivial, h.1⟩
  | cons j l ih =>
    intro b i h
    obtain ⟨hbj, h'⟩ := h
    obtain ⟨hml, hlast⟩ := ih j.now i h'
    exact ⟨⟨hbj, hml⟩, hlast⟩

theorem runTicks_append_single (st : DashState) (l : List TickInput) (i : TickInput) :
    runTicks st (l ++ [i]) = tickStep (runTicks st l) i := by
  simp [runTicks, List.foldl_append]

theorem update_data_append_cutoff (st : DashState) (c1 c2 p : PingOutcome) (now b : ℚ)
    (hs : st.ping_time_data.Sorted (· ≤ ·))
    (hub : ∀ t ∈ st.ping_time_data, t ≤ b) (hb : b ≤ now)
    (hrun : st.speedtest_running = false) (hc : check_connection c2 = true) :
    ∀ t ∈ (update_data st c1 c2 p now).state.ping_time_data, now - window_seconds ≤ t := by
  simp only [update_data, hrun, hc, if_true, if_false, Bool.false_eq_true]
  exact evictPair_fst_lb _ _ _
    (sorted_append_singleton hs (fun t ht => (hub t ht).trans hb))

/-! ### Claim theorems -/

/-- C1: on every tick of the periodic update loop that occurs while a
throughput test is active (`speedtest_running = true`), `update_data`
performs no network probe and appends no sample: `ping_time_data` and
`ping_data` are unchanged by that tick. -/
theorem C1_speedtest_tick_is_noop (st : DashState) (c1 c2 p : PingOutcome) (now : ℚ)
    (h : st.speedtest_running = true) :
    (update_data st c1 c2 p now).probes = 0 ∧
      (update_data st c1 c2 p now).state.ping_time_data = st.ping_time_data ∧
      (update_data st c1 c2 p now).state.ping_data = st.ping_data := by
  simp [update_data, h]

theorem C1_speedtest_tick_is_noop_witness :
    (update_data runningState PingOutcome.timeout PingOutcome.timeout
        PingOutcome.timeout 9).probes = 0 ∧
      (update_data runningState PingOutcome.timeout PingOutcome.timeout
        PingOutcome.timeout 9).state.ping_time_data = [5] ∧
      (update_data runningState PingOutcome.timeout PingOutcome.timeout
        PingOutcome.timeout 9).state.ping_data = [7] := by
  have h := C1_speedtest_tick_is_noop runningState PingOutcome.timeout
    PingOutcome.timeout PingOutcome.timeout 9 rfl
  simpa [runningState, initState] using h

/-- C2 (what the code actually does, contradicting the claim): the probe
does not signal loss structurally.  A timeout and a raised exception are
both returned by `measure_ping` as the numeric value `0.0`, the same value
a legitimate zero round trip produces, and the dashboard marks a sample
lost exactly when that value equals `0.0` — so zero latency IS the loss
sentinel: a tick whose probe times out is recorded via the sentinel, and a
genuine 0-second round trip would be recorded as lost. -/
theorem C2_zero_latency_is_loss_sentinel :
    measure_ping PingOutcome.timeout = 0 ∧
      measure_ping PingOutcome.exn = 0 ∧
      measure_ping (PingOutcome.rtt 0) = 0 ∧
      isLostPing (measure_ping (PingOutcome.rtt 0)) = true ∧
      (update_data initState (PingOutcome.rtt 1) (PingOutcome.rtt 1)
        PingOutcome.timeout 100).state.lost_pings = 1 := by
  refine ⟨rfl, rfl, by simp [measure_ping], by simp [isLostPing, measure_ping], ?_⟩
  simp [update_data, initState, check_connection, measure_ping, isLostPing,
    window_seconds, evictPair, evictList, pingMetrics, validSamples, isNan]

/-- C3 counterexample: after a real lost tick (time 100, probe timeout,
stored as `0.0`) and a real 50 ms tick (time 101), the code's metrics
computation reports `min = 0, max = 50, avg = 25` — the lost sample IS
included in min/max/avg — while the claimed statistics over non-lost
samples only would be `min = max = avg = 50`. -/
theorem C3_lost_samples_included_counterexample :
    lostThenGoodState.ping_data = [0, 50] ∧
      lostThenGoodState.lost_pings = 1 ∧
      lostThenGoodState.total_pings = 2 ∧
      lostThenGoodState.metrics = MetricsDisplay.stats 0 50 25 1 2 ∧
      claimedMetrics [0, 50] 1 2 = MetricsDisplay.stats 50 50 50 1 2 ∧
      MetricsDisplay.stats 0 50 25 1 2 ≠ MetricsDisplay.stats 50 50 50 1 2 := by
  refine ⟨?_, ?_, ?_, ?_, ?_, ?_⟩
  all_goals
    norm_num [lostThenGoodState, update_data, initState, check_connection, measure_ping,
      isLostPing, window_seconds, evictPair, evictList, pingMetrics, validSamples,
      isNan, claimedMetrics]
  all_goals simp

/-- C3 (amended): the metrics computation takes min, max and average over
ALL buffered latency values (none of which is NaN), so lost samples —
stored as `0.0` — are included in those three statistics; the loss
counters count every tick, lost ones included; and `"No data"` is shown
exactly when no (non-NaN) sample exists, i.e. only for an empty buffer,
never as a NaN value. -/
theorem C3_stats_over_all_buffered_samples (pd : List ℚ) (lost total : ℕ) :
    pingMetrics [] lost total = MetricsDisplay.noData ∧
      ∀ y ∈ pd, ∃ mn mx,
        pingMetrics pd lost total
            = MetricsDisplay.stats mn mx (pd.sum / pd.length) lost total ∧
          mn ≤ y ∧ y ≤ mx ∧ mn ∈ pd ∧ mx ∈ pd := by
  constructor
  · rfl
  · intro y hy
    cases pd with
    | nil => simp at hy
    | cons a ys =>
      refine ⟨ys.foldl min a, ys.foldl max a, ?_,
        foldl_min_le ys a y hy, foldl_max_ge ys a y hy,
        foldl_min_mem ys a, foldl_max_mem ys a⟩
      have hval : validSamples (a :: ys) = a :: ys := by
        simp [validSamples, isNan]
      simp only [pingMetrics, hval, List.sum_cons, List.length_cons]
      congr 1
      push_cast
      ring

theorem C3_stats_over_all_buffered_samples_witness :
    pingMetrics [] 1 2 = MetricsDisplay.noData ∧
      ∃ mn mx,
        pingMetrics [0, 50] 1 2
            = MetricsDisplay.stats mn mx
                (([0, 50] : List ℚ).sum / (([0, 50] : List ℚ).length : ℚ)) 1 2 ∧
          mn ≤ 50 ∧ (50 : ℚ) ≤ mx ∧ mn ∈ ([0, 50] : List ℚ) ∧ mx ∈ ([0, 50] : List ℚ) := by
  refine ⟨(C3_stats_over_all_buffered_samples [0, 50] 1 2).1, ?_⟩
  exact (C3_stats_over_all_buffered_samples [0, 50] 1 2).2 50 (by norm_num)

/-- C4: for every sequence of time-ordered ticks (nondecreasing
`time.time()` values), immediately after any tick that appends (no speed
test running and the connection check succeeded), the ring buffer contains
no sample older than `now - window_seconds`: every append evicts all head
samples older than the cutoff. -/
theorem C4_append_evicts_outside_window (b : ℚ) (l : List TickInput) (i : TickInput)
    (hm : Mono b (l ++ [i])) (hrun : i.running = false)
    (hc : check_connection i.conn2 = true) :
    ∀ t ∈ (runTicks initState (l ++ [i])).ping_time_data,
      i.now - window_seconds ≤ t := by
  obtain ⟨hml, hlast⟩ := Mono_append l b i hm
  have hinv := runTicks_SortedLe l initState b ⟨by simp [initState], by simp [initState]⟩ hml
  rw [runTicks_append_single]
  obtain ⟨hs, hub⟩ := hinv
  exact update_data_append_cutoff _ i.conn1 i.conn2 i.ping i.now (lastNow b l)
    hs hub hlast hrun hc

theorem C4_append_evicts_outside_window_witness :
    sampleTick.now - window_seconds ≤ 400 := by
  have h := C4_append_evicts_outside_window 0 [] sampleTick
    (⟨by norm_num [sampleTick], trivial⟩) rfl rfl
  apply h 400
  norm_num [runTicks, tickStep, update_data, initState, sampleTick, check_connection,
    measure_ping, isLostPing, window_seconds, evictPair, evictList, pingMetrics,
    validSamples, isNan]

/-- C5: for every DNS leak test run, the report satisfies
`unexpected_servers = detected_servers \ configured_dns` as exact set
difference, `is_leaking` is true iff `unexpected_servers` is nonempty, and
whenever the configured set contains every detected server `is_leaking`
is false. -/
theorem C5_leak_report_set_difference (read : Except Unit (List String))
    (res : List (Option (Finset String))) :
    (check_dns_leaks read res).unexpected_servers
        = (check_dns_leaks read res).detected_servers
            \ (check_dns_leaks read res).configured_dns ∧
      ((check_dns_leaks read res).is_leaking = true
        ↔ (check_dns_leaks read res).unexpected_servers ≠ ∅) ∧
      ((check_dns_leaks read res).detected_servers
          ⊆ (check_dns_leaks read res).configured_dns
        → (check_dns_leaks read res).is_leaking = false) := by
  refine ⟨rfl, ?_, ?_⟩
  · show decide (0 < (check_dns_leaks read res).unexpected_servers.card) = true ↔ _
    simp [Finset.card_pos, Finset.nonempty_iff_ne_empty]
  · intro hsub
    have h : (check_dns_leaks read res).unexpected_servers = ∅ :=
      Finset.sdiff_eq_empty_iff_subset.mpr hsub
    show decide (0 < (check_dns_leaks read res).unexpected_servers.card) = false
    rw [h]
    simp

theorem C5_leak_report_set_difference_witness :
    (check_dns_leaks (Except.ok ["1.1.1.1", "8.8.8.8"])
      [some ({"8.8.8.8"} : Finset String)]).is_leaking = false := by
  exact (C5_leak_report_set_difference (Except.ok ["1.1.1.1", "8.8.8.8"])
    [some ({"8.8.8.8"} : Finset String)]).2.2 (by decide)

/-- C9: when reading the system's configured resolver list fails,
`get_system_dns` returns the empty list, so the configured set used for
the comparison is empty, every detected server is unexpected, and
`is_leaking` is true exactly when at least one server was detected. -/
theorem C9_failed_dns_read_marks_all_detected (res : List (Option (Finset String))) :
    (check_dns_leaks (Except.error ()) res).configured_dns = ∅ ∧
      (check_dns_leaks (Except.error ()) res).unexpected_servers
        = (check_dns_leaks (Except.error ()) res).detected_servers ∧
      ((check_dns_leaks (Except.error ()) res).is_leaking = true
        ↔ (check_dns_leaks (Except.error ()) res).detected_servers ≠ ∅) := by
  have hconf : (check_dns_leaks (Except.error ()) res).configured_dns = ∅ := rfl
  have hunex : (check_dns_leaks (Except.error ()) res).unexpected_servers
      = (check_dns_leaks (Except.error ()) res).detected_servers := by
    show (check_dns_leaks (Except.error ()) res).detected_servers \ (∅ : Finset String)
      = (check_dns_leaks (Except.error ()) res).detected_servers
    exact Finset.sdiff_empty
  refine ⟨hconf, hunex, ?_⟩
  show decide (0 < (check_dns_leaks (Except.error ()) res).unexpected_servers.card) = true ↔ _
  rw [hunex]
  simp [Finset.card_pos, Finset.nonempty_iff_ne_empty]

theorem C9_failed_dns_read_marks_all_detected_witness :
    (check_dns_leaks (Except.error ())
      [some ({"9.9.9.9"} : Finset String)]).is_leaking = true := by
  exact (C9_failed_dns_read_marks_all_detected
    [some ({"9.9.9.9"} : Finset String)]).2.2.mpr (by decide)

/-- C6 counterexample: with the speedtest subsystem unavailable, a call
with `force = true` performs no fresh measurement — it returns the error
dict untouched — so "a call with force=true always performs a fresh
measurement" is false as stated. -/
theorem C6_force_true_unavailable_counterexample :
    (measure_speed ⟨false, 0, none⟩ true 1000
        (SpeedRun.ok 55300000 12100000)).ranMeasurement = false ∧
      (measure_speed ⟨false, 0, none⟩ true 1000
        (SpeedRun.ok 55300000 12100000)).result = ⟨0, 0, true⟩ := by
  exact ⟨rfl, rfl⟩

/-- C6 (amended): a `force = false` call made less than
`speed_test_interval` (300 s) after the last completed test runs no new
measurement and returns the cached last-measured result; a `force = true`
call performs a fresh measurement whenever the subsystem is available —
when it is unavailable no call measures and the error result is returned;
and a fresh successful measurement returns exactly the measured rates. -/
theorem C6_rate_limit_and_force (st : SpeedtestState) (force : Bool) (t : ℚ)
    (run : SpeedRun) :
    (st.speedtest_available = true → force = false →
        t - st.last_speed_test < speed_test_interval →
        (measure_speed st force t run).ranMeasurement = false ∧
          (measure_speed st force t run).result = cachedResult st) ∧
      (st.speedtest_available = true → force = true →
        (measure_speed st force t run).ranMeasurement = true) ∧
      (st.speedtest_available = false →
        (measure_speed st force t run).ranMeasurement = false ∧
          (measure_speed st force t run).result = ⟨0, 0, true⟩) ∧
      (∀ d u, run = SpeedRun.ok d u →
        (measure_speed st force t run).ranMeasurement = true →
        (measure_speed st force t run).result = ⟨d / 1000000, u / 1000000, false⟩) := by
  by_cases ha : st.speedtest_available = false
  · refine ⟨?_, ?_, ?_, ?_⟩
    · intro h; rw [h] at ha; cases ha
    · intro h; rw [h] at ha; cases ha
    · intro _; simp [measure_speed, ha]
    · intro d u hrun hran
      rw [show (measure_speed st force t run).ranMeasurement = false by
        simp [measure_speed, ha]] at hran
      cases hran
  · by_cases hcache : force = false ∧ t - st.last_speed_test < speed_test_interval
    · refine ⟨?_, ?_, ?_, ?_⟩
      · intro _ _ _; simp [measure_speed, ha, hcache]
      · intro _ hforce; rw [hforce] at hcache; simp at hcache
      · intro h; exact absurd h ha
      · intro d u hrun hran
        rw [show (measure_speed st force t run).ranMeasurement = false by
          simp [measure_speed, ha, hcache]] at hran
        cases hran
    · refine ⟨?_, ?_, ?_, ?_⟩
      · intro _ hforce hlt; exact absurd ⟨hforce, hlt⟩ hcache
      · intro _ _
        cases run <;> simp [measure_speed, ha, hcache]
      · intro h; exact absurd h ha
      · intro d u hrun _
        subst hrun
        simp [measure_speed, ha, hcache]

theorem C6_rate_limit_and_force_witness :
    (measure_speed ⟨true, 100, some (55300000, 12100000)⟩ false 200
        SpeedRun.fail).ranMeasurement = false ∧
      (measure_speed ⟨true, 100, some (55300000, 12100000)⟩ false 200
        SpeedRun.fail).result = ⟨553 / 10, 121 / 10, false⟩ := by
  have h := (C6_rate_limit_and_force ⟨true, 100, some (55300000, 12100000)⟩
    false 200 SpeedRun.fail).1 rfl rfl (by norm_num [speed_test_interval])
  refine ⟨h.1, ?_⟩
  rw [h.2]
  norm_num [cachedResult]

/-- C7 counterexample: the result does NOT let the caller distinguish a
run that failed from one that never ran.  A call with the subsystem
unavailable (which never enters the measurement attempt) and a call that
runs and fails during a phase return the byte-identical dict
`{"download": 0.0, "upload": 0.0, "error": True}` — the code carries no
error kind — so the claim's distinguishability conclusion is false at
these concrete inputs. -/
theorem C7_failed_vs_never_ran_same_result_counterexample :
    (measure_speed ⟨false, 0, none⟩ true 1000 SpeedRun.fail).ranMeasurement
        = false ∧
      (measure_speed ⟨true, 0, none⟩ true 1000 SpeedRun.fail).ranMeasurement
        = true ∧
      (measure_speed ⟨false, 0, none⟩ true 1000 SpeedRun.fail).result
        = ⟨0, 0, true⟩ ∧
      (measure_speed ⟨true, 0, none⟩ true 1000 SpeedRun.fail).result
        = ⟨0, 0, true⟩ ∧
      (measure_speed ⟨false, 0, none⟩ true 1000 SpeedRun.fail).result
        = (measure_speed ⟨true, 0, none⟩ true 1000 SpeedRun.fail).result := by
  refine ⟨rfl, ?_, rfl, ?_, ?_⟩ <;>
    norm_num [measure_speed, speed_test_interval]

/-- C7 (amended): a failure during either measurement phase, as well as
the subsystem being unavailable, is returned as a structured result with
the `"error": True` indication (the embedding of the `try/except` is
total — no exception escapes `measure_speed`), and the error flag is set
exactly in those two cases, so errored outcomes are distinguishable from
successful and cached results; the two failure cases themselves, however,
share one indication and are not told apart by the result. -/
theorem C7_failures_return_structured_error (st : SpeedtestState) (force : Bool)
    (t : ℚ) (run : SpeedRun) :
    (st.speedtest_available = false →
        (measure_speed st force t run).result = ⟨0, 0, true⟩) ∧
      ((measure_speed st force t run).ranMeasurement = true → run = SpeedRun.fail →
        (measure_speed st force t run).result = ⟨0, 0, true⟩) ∧
      ((measure_speed st force t run).result.error = true
        ↔ st.speedtest_available = false ∨
            ((measure_speed st force t run).ranMeasurement = true ∧
              run = SpeedRun.fail)) := by
  by_cases ha : st.speedtest_available = false
  · simp [measure_speed, ha]
  · by_cases hcache : force = false ∧ t - st.last_speed_test < speed_test_interval
    · refine ⟨fun h => absurd h ha, ?_, ?_⟩
      · intro hran
        rw [show (measure_speed st force t run).ranMeasurement = false by
          simp [measure_speed, ha, hcache]] at hran
        cases hran
      · rcases hres : st.results with _ | du <;>
          simp [measure_speed, ha, hcache, cachedResult, hres]
    · cases run with
      | ok d u => simp [measure_speed, ha, hcache]
      | fail => simp [measure_speed, ha, hcache]

theorem C7_failures_return_structured_error_witness :
    (measure_speed ⟨true, 0, none⟩ true 1000 SpeedRun.fail).result = ⟨0, 0, true⟩ := by
  refine (C7_failures_return_structured_error ⟨true, 0, none⟩ true 1000
    SpeedRun.fail).2.1 ?_ rfl
  norm_num [measure_speed, speed_test_interval]

/-- C8 counterexample: starting from a state built by one fully successful
tick (nonempty buffer, zero losses so far), a single tick whose
connectivity probe fails — the first failure ever, with no repeated or
continuous failure observed — already clears `ping_time_data` and
`ping_data`, so "connection-level downstream effects happen only after
repeated/continuous failure" is false as stated. -/
theorem C8_single_failure_clears_buffers_counterexample :
    oneGoodTickState.ping_time_data = [100] ∧
      oneGoodTickState.lost_pings = 0 ∧
      oneGoodTickState.total_pings = 1 ∧
      (update_data oneGoodTickState PingOutcome.timeout PingOutcome.timeout
        PingOutcome.timeout 101).state.ping_time_data = [] ∧
      (update_data oneGoodTickState PingOutcome.timeout PingOutcome.timeout
        PingOutcome.timeout 101).state.ping_data = [] := by
  refine ⟨?_, ?_, ?_, ?_, ?_⟩
  all_goals
    norm_num [oneGoodTickState, update_data, initState, check_connection,
      measure_ping, isLostPing, window_seconds, evictPair, evictList,
      pingMetrics, validSamples, isNan]

/-- C8 (amended): on a tick whose connectivity check succeeds, a failed or
zero latency probe is recorded only as a lost sample — the loss counters
are bumped and the buffer stays nonempty (the new sample survives
eviction) — while the buffers are cleared and the status label reset
exactly on a tick whose connectivity check fails, which a single failed
connectivity probe suffices to trigger. -/
theorem C8_lost_sample_vs_disconnect (st : DashState) (c1 c2 p : PingOutcome)
    (now : ℚ) (hrun : st.speedtest_running = false) :
    (check_connection c2 = true → isLostPing (measure_ping p) = true →
        (update_data st c1 c2 p now).state.lost_pings = st.lost_pings + 1 ∧
          (update_data st c1 c2 p now).state.total_pings = st.total_pings + 1 ∧
          (update_data st c1 c2 p now).state.ping_time_data ≠ []) ∧
      (check_connection c2 = false →
        (update_data st c1 c2 p now).state.ping_time_data = [] ∧
          (update_data st c1 c2 p now).state.ping_data = [] ∧
          (update_data st c1 c2 p now).state.status = "Status: Disconnected") := by
  constructor
  · intro hc hlost
    have hx : ¬ now < now - window_seconds :=
      not_lt.mpr (sub_le_self now (by norm_num [window_seconds]))
    simp only [update_data, hrun, hc, hlost, if_true, if_false, Bool.false_eq_true]
    exact ⟨trivial, trivial, evictPair_fst_ne_nil st.ping_time_data _ now _ hx⟩
  · intro hc
    simp [update_data, hrun, hc]

theorem C8_lost_sample_vs_disconnect_witness :
    (update_data initState (PingOutcome.rtt 1) (PingOutcome.rtt 1)
        PingOutcome.exn 100).state.lost_pings = 1 ∧
      (update_data initState (PingOutcome.rtt 1) (PingOutcome.rtt 1)
        PingOutcome.exn 100).state.ping_time_data ≠ [] := by
  have h := (C8_lost_sample_vs_disconnect initState (PingOutcome.rtt 1)
    (PingOutcome.rtt 1) PingOutcome.exn 100 rfl).1 rfl rfl
  exact ⟨h.1, h.2.2⟩

/-- C10: `last_speed_test` — the timestamp the re-test interval check
compares against — is set to the call time only when both transfer phases
complete successfully; it is unchanged after a failed run and when the
subsystem is unavailable, so a `force = false` call made at any wall-clock
time at least `speed_test_interval` after construction
(`last_speed_test = 0`) re-runs the measurement instead of serving a
cached failure. -/
theorem C10_last_test_time_only_on_success (st : SpeedtestState) (force : Bool)
    (t : ℚ) (run : SpeedRun) :
    (st.speedtest_available = false →
        (measure_speed st force t run).state.last_speed_test = st.last_speed_test) ∧
      (run = SpeedRun.fail →
        (measure_speed st force t run).state.last_speed_test = st.last_speed_test) ∧
      (∀ d u, run = SpeedRun.ok d u →
        (measure_speed st force t run).ranMeasurement = true →
        (measure_speed st force t run).state.last_speed_test = t) ∧
      (st.speedtest_available = true → st.last_speed_test = 0 →
        speed_test_interval ≤ t → force = false →
        (measure_speed st force t run).ranMeasurement = true) := by
  by_cases ha : st.speedtest_available = false
  · refine ⟨fun _ => by simp [measure_speed, ha], fun _ => by simp [measure_speed, ha],
      ?_, fun h => by rw [h] at ha; cases ha⟩
    intro d u hrun hran
    rw [show (measure_speed st force t run).ranMeasurement = false by
      simp [measure_speed, ha]] at hran
    cases hran
  · by_cases hcache : force = false ∧ t - st.last_speed_test < speed_test_interval
    · refine ⟨fun h => absurd h ha, fun _ => by simp [measure_speed, ha, hcache], ?_, ?_⟩
      · intro d u hrun hran
        rw [show (measure_speed st force t run).ranMeasurement = false by
          simp [measure_speed, ha, hcache]] at hran
        cases hran
      · intro _ hzero hge _
        rw [hzero] at hcache
        have : t - 0 < speed_test_interval := hcache.2
        simp at this
        exact absurd hge (not_le.mpr this)
    · refine ⟨fun h => absurd h ha, ?_, ?_, ?_⟩
      · intro hrun
        subst hrun
        simp [measure_speed, ha, hcache]
      · intro d u hrun _
        subst hrun
        simp [measure_speed, ha, hcache]
      · intro _ _ _ _
        cases run <;> simp [measure_speed, ha, hcache]

theorem C10_last_test_time_only_on_success_witness :
    (measure_speed ⟨true, 0, none⟩ false 400 SpeedRun.fail).ranMeasurement = true ∧
      (measure_speed ⟨true, 0, none⟩ false 400 SpeedRun.fail).state.last_speed_test
        = 0 := by
  have h := C10_last_test_time_only_on_success ⟨true, 0, none⟩ false 400 SpeedRun.fail
  exact ⟨h.2.2.2 rfl rfl (by norm_num [speed_test_interval]) rfl, h.2.1 rfl⟩
